import Mathlib

/-!
Verification of the booking / payment / availability core of the farmhost
marketplace server, embedded shallowly from:

  * src/unnamed/part_000 — the `DatabaseStorage` layer (getEquipment,
    updateEquipment, getBooking, listBookings, createBooking, updateBooking,
    getBookingsByDateRange, checkEquipmentAvailability, createReview);
  * src/unnamed/part_002 — the shared drizzle schema and zod validators;
  * src/server/index.ts — the route bodies (POST /api/bookings,
    POST /api/bookings/verify-payment, POST /api/webhooks/razorpay,
    POST /api/reviews, PATCH /api/equipment/:id,
    PATCH /api/equipment/:id/availability) and the local
    `handleWebhookEvent` helper defined at the bottom of the routes module;
  * src/server/payment.ts — `verifyPaymentSignature`, `generateReceipt`
    and that module's own (exported but unimported) `handleWebhookEvent`.

Rows are Lean structures, the database is a `Store` of row lists, and each
route body is a pure function from a `Store` (plus the request data) to a
response value and the successor `Store`.  External collaborators are
parameters: the HMAC-SHA256 primitive is an abstract function argument, the
Razorpay order creation is a boolean outcome `orderOk`, and `generateReceipt`
is tracked by an invocation counter on the store (the one-time side effect of
payment confirmation).  Timestamps are UTC milliseconds as `Int`; the
`lastStatusUpdate` column and wall-clock reads are not modelled.  A storage
method that throws is an `Except.error` carrying the thrown message; a route
`catch` is a match on that error.
-/

/-- Equipment row (table `equipment`, src/unnamed/part_002): only the columns
the booking core reads are kept. -/
structure Equipment where
  id : Nat
  ownerId : Nat
  name : String
  dailyRate : Int
  availability : Bool
deriving DecidableEq

/-- Booking row (table `bookings`).  `startDate`, `endDate` and `createdAt`
are UTC milliseconds. -/
structure Booking where
  id : Nat
  equipmentId : Nat
  userId : Nat
  startDate : Int
  endDate : Int
  totalPrice : Int
  status : String
  razorpayOrderId : Option String
  razorpayPaymentId : Option String
  isRated : Bool
  createdAt : Int
deriving DecidableEq

/-- Review row (table `reviews`), without the timestamp column. -/
structure Review where
  userId : Nat
  equipmentId : Nat
  rating : Nat
  comment : String
deriving DecidableEq

/-- The persistent state: the three row tables, plus a counter of
`generateReceipt` invocations (the one-time side effect of payment
confirmation, observable per the reconciliation contract). -/
structure Store where
  equipments : List Equipment
  bookings : List Booking
  reviews : List Review
  receiptCount : Nat
deriving DecidableEq

/-- `DatabaseStorage.getEquipment`: the first row with the id. -/
def getEquipment (s : Store) (id : Nat) : Option Equipment :=
  s.equipments.find? (fun e => e.id == id)

/-- A partial column set for `UPDATE equipment SET ...` (`Partial<InsertEquipment>`);
`none` leaves the column untouched. -/
structure EquipmentUpdate where
  name : Option String := none
  dailyRate : Option Int := none
  availability : Option Bool := none
deriving DecidableEq

def applyEquipmentUpdate (u : EquipmentUpdate) (e : Equipment) : Equipment :=
  { e with
    name := u.name.getD e.name
    dailyRate := u.dailyRate.getD e.dailyRate
    availability := u.availability.getD e.availability }

/-- `DatabaseStorage.updateEquipment`: set the given columns on the matching
row and return it, or throw `Equipment not found`. -/
def updateEquipment (s : Store) (id : Nat) (u : EquipmentUpdate) :
    Except String (Store × Equipment) :=
  match getEquipment s id with
  | none => .error "Equipment not found"
  | some e =>
    .ok ({ s with equipments :=
             s.equipments.map (fun x => if x.id == id then applyEquipmentUpdate u x else x) },
         applyEquipmentUpdate u e)

/-- `DatabaseStorage.getBooking`. -/
def getBooking (s : Store) (id : Nat) : Option Booking :=
  s.bookings.find? (fun b => b.id == id)

/-- A partial column set for `UPDATE bookings SET ...` (`Partial<Booking>`);
the routes only ever set these four columns. -/
structure BookingUpdate where
  status : Option String := none
  razorpayOrderId : Option String := none
  razorpayPaymentId : Option String := none
  isRated : Option Bool := none
deriving DecidableEq

def applyBookingUpdate (u : BookingUpdate) (b : Booking) : Booking :=
  { b with
    status := u.status.getD b.status
    razorpayOrderId := match u.razorpayOrderId with
      | some v => some v
      | none => b.razorpayOrderId
    razorpayPaymentId := match u.razorpayPaymentId with
      | some v => some v
      | none => b.razorpayPaymentId
    isRated := u.isRated.getD b.isRated }

/-- `DatabaseStorage.updateBooking`: set the given columns on the matching row
and return it, or throw `Booking not found`. -/
def updateBooking (s : Store) (id : Nat) (u : BookingUpdate) :
    Except String (Store × Booking) :=
  match getBooking s id with
  | none => .error "Booking not found"
  | some b =>
    .ok ({ s with bookings :=
             s.bookings.map (fun x => if x.id == id then applyBookingUpdate u x else x) },
         applyBookingUpdate u b)

/-- `DatabaseStorage.createBooking`: insert the row (the route passes the
serial id and `NOW()` timestamp in, see `createBookingRoute`). -/
def createBooking (s : Store) (b : Booking) : Store :=
  { s with bookings := s.bookings ++ [b] }

/-- `DatabaseStorage.createReview`: insert the row. -/
def createReview (s : Store) (r : Review) : Store :=
  { s with reviews := s.reviews ++ [r] }

/-- `generateReceipt` (src/server/payment.ts) fetches the payment from
Razorpay and builds a receipt object; the model records the invocation. -/
def generateReceipt (s : Store) : Store :=
  { s with receiptCount := s.receiptCount + 1 }

/-- Milliseconds per day, `1000 * 3600 * 24`. -/
def msPerDay : Int := 86400000

/-- `d.setUTCHours(0, 0, 0, 0)`: floor the timestamp to its UTC day. -/
def startOfDayUTC (t : Int) : Int := t - t.emod msPerDay

/-- `d.setUTCHours(23, 59, 59, 999)`: the last millisecond of the UTC day. -/
def endOfDayUTC (t : Int) : Int := startOfDayUTC t + 86399999

/-- Exact `Math.ceil (a / b)` on integers, for positive `b`. -/
def ceilDiv (a b : Int) : Int := (a + b - 1).ediv b

/-- `Math.max(1, Math.ceil((endDate - startDate) / msPerDay) + 1)` from
POST /api/bookings: the inclusive day count, clamped below by one. -/
def bookingTotalDays (startDate endDate : Int) : Int :=
  max 1 (ceilDiv (endDate - startDate) msPerDay + 1)

/-- `equipment.dailyRate * totalDays` from POST /api/bookings. -/
def bookingTotalAmount (dailyRate startDate endDate : Int) : Int :=
  dailyRate * bookingTotalDays startDate endDate

/-- `DatabaseStorage.getBookingsByDateRange`: normalise both bounds to UTC
day granularity, then keep the bookings of the equipment matching one of the
three overlap disjuncts (starts inside, ends inside, spans).  The `isNaN`
guard of the source cannot fire here: timestamps are integers. -/
def getBookingsByDateRange (s : Store) (equipmentId : Nat) (startDate endDate : Int) :
    List Booking :=
  let lo := startOfDayUTC startDate
  let hi := endOfDayUTC endDate
  s.bookings.filter (fun b =>
    b.equipmentId == equipmentId &&
      ((decide (lo ≤ b.startDate) && decide (b.startDate ≤ hi)) ||
       (decide (lo ≤ b.endDate) && decide (b.endDate ≤ hi)) ||
       (decide (b.startDate ≤ lo) && decide (hi ≤ b.endDate))))

/-- `DatabaseStorage.checkEquipmentAvailability`: false when the equipment is
missing or its global flag is off, else true unless some overlapping booking
is `paid` or `awaiting_payment`. -/
def checkEquipmentAvailability (s : Store) (equipmentId : Nat) (startDate endDate : Int) :
    Bool :=
  match getEquipment s equipmentId with
  | none => false
  | some e =>
    if !e.availability then false
    else
      !(getBookingsByDateRange s equipmentId startDate endDate).any
        (fun b => b.status == "paid" || b.status == "awaiting_payment")

/-- `verifyPaymentSignature` (src/server/payment.ts): hex HMAC-SHA256 of
`orderId|paymentId` under the Razorpay key secret, compared with the supplied
signature.  `hmac` abstracts `crypto.createHmac("sha256", key).update(msg).digest("hex")`. -/
def verifyPaymentSignature (hmac : String → String → String) (keySecret : String)
    (orderId paymentId signature : String) : Bool :=
  hmac keySecret (orderId ++ "|" ++ paymentId) == signature

inductive CreateResult where
  | notFound
  | notAvailable
  | datesUnavailable
  | paymentFailed
  | serverError (msg : String)
  | created (b : Booking)
deriving DecidableEq

/-- The `catch (paymentError)` block of POST /api/bookings: restore the
equipment flag, mark the booking `payment_failed`, answer HTTP 400; the
booking row itself is kept.  A throw inside the catch surfaces as the outer
500 handler (`serverError`). -/
def createBookingCompensate (s : Store) (equipmentId bookingId : Nat) :
    CreateResult × Store :=
  match updateEquipment s equipmentId { availability := some true } with
  | .error msg => (.serverError msg, s)
  | .ok (s1, _) =>
    match updateBooking s1 bookingId { status := some "payment_failed" } with
    | .error msg => (.serverError msg, s1)
    | .ok (s2, _) => (.paymentFailed, s2)

/-- Tail of the `try` block of POST /api/bookings once the Razorpay order came
back: promote the row to `awaiting_payment` and attach the order id (a throw
here is still caught by the same `catch`). -/
def createBookingPromote (s : Store) (equipmentId bookingId : Nat) (orderId : String) :
    CreateResult × Store :=
  match updateBooking s bookingId
      { status := some "awaiting_payment", razorpayOrderId := some orderId } with
  | .error _ => createBookingCompensate s equipmentId bookingId
  | .ok (s1, ub) => (.created ub, s1)

/-- The row POST /api/bookings hands to `createBooking`: the parsed request
plus the computed price, inserted with status `pending`. -/
def newBookingRow (userId equipmentId : Nat) (startDate endDate price : Int)
    (newId : Nat) (createdAt : Int) : Booking :=
  { id := newId, equipmentId := equipmentId, userId := userId,
    startDate := startDate, endDate := endDate, totalPrice := price,
    status := "pending", razorpayOrderId := none, razorpayPaymentId := none,
    isRated := false, createdAt := createdAt }

/-- POST /api/bookings.  `orderOk` is the outcome of `createPaymentSession`
(the external Razorpay order creation); `newId` and `createdAt` stand for the
serial id and `NOW()` the database supplies.  The route checks the equipment
row, its global flag and `checkEquipmentAvailability`, inserts the row with
status `pending`, locks the equipment, and only then calls the payment
gateway.  Neither the route nor `insertBookingSchema` ever compares
`startDate` with `endDate`. -/
def createBookingRoute (s : Store) (userId equipmentId : Nat) (startDate endDate : Int)
    (newId : Nat) (createdAt : Int) (orderOk : Bool) (orderId : String) :
    CreateResult × Store :=
  match getEquipment s equipmentId with
  | none => (.notFound, s)
  | some equip =>
    if !equip.availability then (.notAvailable, s)
    else
      let totalAmount := bookingTotalAmount equip.dailyRate startDate endDate
      if !checkEquipmentAvailability s equipmentId startDate endDate then
        (.datesUnavailable, s)
      else
        let row := newBookingRow userId equipmentId startDate endDate totalAmount
          newId createdAt
        let s1 := createBooking s row
        match updateEquipment s1 equipmentId { availability := some false } with
        | .error _ => createBookingCompensate s1 equipmentId newId
        | .ok (s2, _) =>
          if orderOk then createBookingPromote s2 equipmentId newId orderId
          else createBookingCompensate s2 equipmentId newId

/-- The store POST /api/bookings passes to `createPaymentSession`: the one
right after the row insert and the eager equipment lock (when the equipment
row is missing the lock cannot apply and the insert-only store is returned;
the route never reaches that point in that case). -/
def createBookingLockState (s : Store) (userId equipmentId : Nat) (startDate endDate : Int)
    (price : Int) (newId : Nat) (createdAt : Int) : Store :=
  match updateEquipment
      (createBooking s (newBookingRow userId equipmentId startDate endDate price newId createdAt))
      equipmentId { availability := some false } with
  | .error _ =>
    createBooking s (newBookingRow userId equipmentId startDate endDate price newId createdAt)
  | .ok (s2, _) => s2

inductive VerifyResp where
  | missingFields
  | notFound
  | alreadyPaid (b : Booking)
  | invalidSignature
  | success (b : Booking)
  | serverError (msg : String)
deriving DecidableEq

/-- POST /api/bookings/verify-payment.  Field-presence validation first (JS
truthiness: id 0 and empty strings count as missing), then the booking
lookup, then the already-`paid` short-circuit, then signature verification —
on mismatch the equipment is made available again and the booking is left
alone; on match the booking is set `paid` with the payment id recorded and
the equipment is re-locked. -/
def verifyPaymentRoute (hmac : String → String → String) (keySecret : String) (s : Store)
    (bookingId : Nat) (orderId paymentId signature : String) : VerifyResp × Store :=
  if bookingId == 0 || orderId == "" || paymentId == "" || signature == "" then
    (.missingFields, s)
  else
    match getBooking s bookingId with
    | none => (.notFound, s)
    | some booking =>
      if booking.status == "paid" then (.alreadyPaid booking, s)
      else if !verifyPaymentSignature hmac keySecret orderId paymentId signature then
        match updateEquipment s booking.equipmentId { availability := some true } with
        | .error msg => (.serverError msg, s)
        | .ok (s1, _) => (.invalidSignature, s1)
      else
        match updateBooking s bookingId
            { status := some "paid", razorpayPaymentId := some paymentId } with
        | .error msg => (.serverError msg, s)
        | .ok (s1, ub) =>
          match updateEquipment s1 booking.equipmentId { availability := some false } with
          | .error msg => (.serverError msg, s1)
          | .ok (s2, _) => (.success ub, s2)

/-- A gateway webhook event, flattened: `event` is `event.event`;
`payment_status`, `payment_order_id` and `payment_id` are
`event.payload.payment.{status, order_id, id}` as read by the routes-module
handler (`order_id` is used there as a booking id, hence `Nat`); the
`entity_*` fields are `event.payload.payment.entity.{order_id, id,
notes.bookingId, error_description}` as read by the payment-module handler
(`notes.bookingId` after `parseInt`, with 0 for the falsy/NaN case). -/
structure WebhookEvent where
  event : String
  payment_status : String
  payment_order_id : Nat
  payment_id : String
  entity_order_id : String
  entity_payment_id : String
  entity_notes_bookingId : Nat
  entity_error_description : String
deriving DecidableEq

inductive WebhookDirective where
  | success (bookingId : Nat) (paymentId : String)
  | failed (bookingId : Nat)
deriving DecidableEq

/-- The `handleWebhookEvent` defined at the bottom of the routes module
(src/server/index.ts): this placeholder, not the payment-module export of the
same name, is the one in scope in POST /api/webhooks/razorpay.  It dispatches
on `event.payload.payment.status` and hands `event.payload.payment.order_id`
back as the booking id. -/
def handleWebhookEvent (ev : WebhookEvent) : Option WebhookDirective :=
  if ev.payment_status == "captured" then
    some (.success ev.payment_order_id ev.payment_id)
  else if ev.payment_status == "failed" then
    some (.failed ev.payment_order_id)
  else none

inductive PaymentWebhookResult where
  | success (bookingId : Nat) (orderId paymentId : String)
  | failed (bookingId : Nat) (error : String)
deriving DecidableEq

/-- The `handleWebhookEvent` exported by src/server/payment.ts (not imported
by the routes module): dispatches on the event name, reads the payment entity
and its `notes.bookingId`, throws when that id is falsy, and maps any other
event name to `null`. -/
def paymentModuleHandleWebhookEvent (ev : WebhookEvent) :
    Except String (Option PaymentWebhookResult) :=
  if ev.event == "payment.captured" then
    if ev.entity_notes_bookingId == 0 then
      .error "Booking ID not found in payment notes"
    else
      .ok (some (.success ev.entity_notes_bookingId ev.entity_order_id
                   ev.entity_payment_id))
  else if ev.event == "payment.failed" then
    .ok (some (.failed ev.entity_notes_bookingId ev.entity_error_description))
  else .ok none

inductive WebhookResp where
  | received
  | missingSignature
  | invalidSignature
  | webhookError (msg : String)
deriving DecidableEq

/-- Body of POST /api/webhooks/razorpay after the signature gate: run the
routes-module `handleWebhookEvent`, then apply the booking/equipment updates
and (on capture) `generateReceipt`; a storage throw is caught and answered
400, keeping whatever had already been written. -/
def processWebhookEvent (ev : WebhookEvent) (s : Store) : WebhookResp × Store :=
  match handleWebhookEvent ev with
  | some (.success bid pid) =>
    if pid == "" then (.received, s)
    else
      match updateBooking s bid { status := some "paid", razorpayPaymentId := some pid } with
      | .error msg => (.webhookError msg, s)
      | .ok (s1, booking) =>
        match updateEquipment s1 booking.equipmentId { availability := some false } with
        | .error msg => (.webhookError msg, s1)
        | .ok (s2, _) => (.received, generateReceipt s2)
  | some (.failed bid) =>
    match updateBooking s bid { status := some "payment_failed" } with
    | .error msg => (.webhookError msg, s)
    | .ok (s1, booking) =>
      match updateEquipment s1 booking.equipmentId { availability := some true } with
      | .error msg => (.webhookError msg, s1)
      | .ok (s2, _) => (.received, s2)
  | none => (.received, s)

/-- POST /api/webhooks/razorpay.  When a webhook secret is configured the
`x-razorpay-signature` header must be present (JS truthiness: an empty header
counts as missing) and equal the hex HMAC-SHA256 of the raw request body;
otherwise the request is answered 400 untouched.  `ev` is the parse of
`rawBody`, passed separately so the signature covers the raw bytes. -/
def webhookRoute (hmac : String → String → String) (webhookSecret : Option String)
    (headerSignature : Option String) (rawBody : String) (ev : WebhookEvent) (s : Store) :
    WebhookResp × Store :=
  match webhookSecret with
  | some secret =>
    match headerSignature with
    | none => (.missingSignature, s)
    | some sig =>
      if sig == "" then (.missingSignature, s)
      else if sig != hmac secret rawBody then (.invalidSignature, s)
      else processWebhookEvent ev s
  | none => processWebhookEvent ev s

/-- Insertion step of `ORDER BY created_at DESC`. -/
def insertByCreatedAtDesc (b : Booking) : List Booking → List Booking
  | [] => [b]
  | x :: xs =>
    if x.createdAt ≤ b.createdAt then b :: x :: xs
    else x :: insertByCreatedAtDesc b xs

/-- `ORDER BY created_at DESC` as an insertion sort. -/
def sortByCreatedAtDesc : List Booking → List Booking
  | [] => []
  | x :: xs => insertByCreatedAtDesc x (sortByCreatedAtDesc xs)

/-- `DatabaseStorage.listBookings(userId?)`: the caller's bookings, newest
first; the admin call passes no argument, modelled as `userId = 0` (the
source tests `if (userId)`, so 0 also lands in the all-bookings branch). -/
def listBookings (s : Store) (userId : Nat) : List Booking :=
  if userId != 0 then
    sortByCreatedAtDesc (s.bookings.filter (fun b => b.userId == userId))
  else sortByCreatedAtDesc s.bookings

inductive ReviewResp where
  | invalidData
  | invalidSubmission
  | ok (r : Review)
  | serverError (msg : String)
deriving DecidableEq

/-- POST /api/reviews.  `reviewSchema` bounds first (rating 1..5, comment
10..500 characters); then the first `paid`, unrated booking of the caller for
the equipment in `listBookings` order (newest first) is taken; no eligible
booking is a 400 distinct from a 404; on success the review is inserted and
that booking's `isRated` is set. -/
def submitReviewRoute (s : Store) (userId equipmentId rating : Nat) (comment : String) :
    ReviewResp × Store :=
  if rating < 1 ∨ 5 < rating ∨ comment.length < 10 ∨ 500 < comment.length then
    (.invalidData, s)
  else
    match (listBookings s userId).find?
        (fun b => b.equipmentId == equipmentId && b.status == "paid" && !b.isRated) with
    | none => (.invalidSubmission, s)
    | some vb =>
      let r : Review :=
        { userId := userId, equipmentId := equipmentId, rating := rating,
          comment := comment }
      let s1 := createReview s r
      match updateBooking s1 vb.id { isRated := some true } with
      | .error msg => (.serverError msg, s1)
      | .ok (s2, _) => (.ok r, s2)

inductive PatchResp where
  | notFound
  | forbidden
  | ok (e : Equipment)
  | serverError (msg : String)
deriving DecidableEq

/-- PATCH /api/equipment/:id (owner or admin): spread of the request body
into an `UPDATE equipment SET ...`; no booking state is consulted. -/
def patchEquipmentRoute (s : Store) (userId : Nat) (isAdmin : Bool) (equipmentId : Nat)
    (u : EquipmentUpdate) : PatchResp × Store :=
  match getEquipment s equipmentId with
  | none => (.notFound, s)
  | some e =>
    if e.ownerId != userId && !isAdmin then (.forbidden, s)
    else
      match updateEquipment s equipmentId u with
      | .error msg => (.serverError msg, s)
      | .ok (s1, e1) => (.ok e1, s1)

/-- PATCH /api/equipment/:id/availability (owner only): writes the
`availability` flag directly; no booking state is consulted. -/
def patchAvailabilityRoute (s : Store) (userId equipmentId : Nat) (available : Bool) :
    PatchResp × Store :=
  match getEquipment s equipmentId with
  | none => (.notFound, s)
  | some e =>
    if e.ownerId != userId then (.forbidden, s)
    else
      match updateEquipment s equipmentId { availability := some available } with
      | .error msg => (.serverError msg, s)
      | .ok (s1, e1) => (.ok e1, s1)

/-- A concrete equipment row used to instantiate theorems. -/
def equipW : Equipment :=
  { id := 1, ownerId := 2, name := "Tractor", dailyRate := 500, availability := true }

/-- A one-item marketplace with no bookings, used to instantiate universally
quantified theorems at concrete inputs. -/
def storeW : Store :=
  { equipments := [equipW], bookings := [], reviews := [], receiptCount := 0 }

/-- A concrete booking awaiting payment for `equipW`. -/
def bookingA : Booking :=
  { id := 1, equipmentId := 1, userId := 3, startDate := 1704067200000,
    endDate := 1704240000000, totalPrice := 1500, status := "awaiting_payment",
    razorpayOrderId := some "order_A", razorpayPaymentId := none, isRated := false,
    createdAt := 100 }

/-- The marketplace while `bookingA` holds its payment lock: the equipment
flag is down and the booking awaits payment. -/
def storeL : Store :=
  { equipments := [{ equipW with availability := false }], bookings := [bookingA],
    reviews := [], receiptCount := 0 }

/-- `bookingA` after its payment was captured. -/
def bookingP : Booking :=
  { bookingA with status := "paid", razorpayPaymentId := some "pay_A" }

/-- The marketplace after `bookingA` was paid. -/
def storeP : Store :=
  { equipments := [{ equipW with availability := false }],
    bookings := [bookingP], reviews := [], receiptCount := 0 }

/-- A concrete stand-in for the HMAC-SHA256 primitive, injective enough for
the instantiations below. -/
def hmacT (key msg : String) : String := key ++ "#" ++ msg

/-- A concrete `payment.captured` webhook event as the routes-module handler
expects it (`payload.payment.status = "captured"`). -/
def evCap : WebhookEvent :=
  { event := "payment.captured", payment_status := "captured", payment_order_id := 1,
    payment_id := "pay_A", entity_order_id := "order_A", entity_payment_id := "pay_A",
    entity_notes_bookingId := 1, entity_error_description := "" }

/-- A `payment.captured` webhook event whose payment entity is not in the
shape the routes-module placeholder reads: `payload.payment.status` is
`authorized` while `event.event` is `payment.captured` and the entity notes
name booking 1. -/
def evBug : WebhookEvent :=
  { event := "payment.captured", payment_status := "authorized", payment_order_id := 1,
    payment_id := "pay_A", entity_order_id := "order_A", entity_payment_id := "pay_A",
    entity_notes_bookingId := 1, entity_error_description := "" }

/-- C1: `checkEquipmentAvailability` fails closed (`false`) when the equipment
does not exist or its global `available` flag is off; otherwise it returns
`true` exactly when no booking of that equipment whose dates meet one of the
three overlap cases against the day-normalised query range has status `paid`
or `awaiting_payment`. -/
theorem checkEquipmentAvailability_spec (s : Store) (eqId : Nat) (qs qe : Int) :
    checkEquipmentAvailability s eqId qs qe = true ↔
      ∃ e, getEquipment s eqId = some e ∧ e.availability = true ∧
        ∀ b ∈ s.bookings, b.equipmentId = eqId →
          ((startOfDayUTC qs ≤ b.startDate ∧ b.startDate ≤ endOfDayUTC qe) ∨
           (startOfDayUTC qs ≤ b.endDate ∧ b.endDate ≤ endOfDayUTC qe) ∨
           (b.startDate ≤ startOfDayUTC qs ∧ endOfDayUTC qe ≤ b.endDate)) →
          ¬(b.status = "paid" ∨ b.status = "awaiting_payment") := by
  unfold checkEquipmentAvailability
  cases h : getEquipment s eqId with
  | none => simp
  | some e =>
    cases hav : e.availability with
    | false => simp [hav]
    | true =>
      simp only [hav, Bool.not_true, Bool.false_eq_true, if_false, Bool.not_eq_true',
        List.any_eq_false, Option.some.injEq]
      constructor
      · intro hall
        refine ⟨e, rfl, hav, ?_⟩
        intro b hb hbe hov hst
        have hmem : b ∈ getBookingsByDateRange s eqId qs qe := by
          unfold getBookingsByDateRange
          refine List.mem_filter.mpr ⟨hb, ?_⟩
          simp only [beq_iff_eq, Bool.and_eq_true, Bool.or_eq_true, decide_eq_true_eq]
          exact ⟨hbe, by tauto⟩
        have hfb := hall b hmem
        rcases hst with h1 | h1 <;> simp [h1] at hfb
      · rintro ⟨e', he', hav', hall⟩ b hbmem
        obtain rfl := he'
        unfold getBookingsByDateRange at hbmem
        obtain ⟨hb, hcond⟩ := List.mem_filter.mp hbmem
        simp only [beq_iff_eq, Bool.and_eq_true, Bool.or_eq_true, decide_eq_true_eq]
          at hcond
        obtain ⟨hbe, hov⟩ := hcond
        have hnp := hall b hb hbe (by tauto)
        push_neg at hnp
        simp [hnp.1, hnp.2]

/-- C8: with `startDate ≤ endDate` the lower clamp is inert and the amount
computed by POST /api/bookings is `dailyRate * (⌈(endDate - startDate) / 1 day⌉ + 1)`,
inclusive of both endpoints. -/
theorem bookingTotalAmount_spec (r sd ed : Int) (h : sd ≤ ed) :
    bookingTotalAmount r sd ed = r * (ceilDiv (ed - sd) msPerDay + 1) := by
  have hk : 0 ≤ ceilDiv (ed - sd) msPerDay := by
    unfold ceilDiv
    exact Int.ediv_nonneg (by unfold msPerDay; omega) (by unfold msPerDay; norm_num)
  unfold bookingTotalAmount bookingTotalDays
  rw [max_eq_right (by linarith)]

/-- The concrete pricing instance of the claim: 2024-01-01T00:00Z to
2024-01-03T00:00Z at daily rate 500 comes to 1500 (three inclusive days). -/
theorem bookingTotalAmount_spec_witness :
    (1704067200000 : Int) ≤ 1704240000000 ∧
      bookingTotalAmount 500 1704067200000 1704240000000 = 1500 := by
  have h := bookingTotalAmount_spec 500 1704067200000 1704240000000 (by decide)
  exact ⟨by decide, by rw [h]; decide⟩

/-- The availability characterisation instantiated at a concrete store and
query range. -/
theorem checkEquipmentAvailability_spec_witness :
    checkEquipmentAvailability storeW 1 1704067200000 1704240000000 = true ↔
      ∃ e, getEquipment storeW 1 = some e ∧ e.availability = true ∧
        ∀ b ∈ storeW.bookings, b.equipmentId = 1 →
          ((startOfDayUTC 1704067200000 ≤ b.startDate ∧
              b.startDate ≤ endOfDayUTC 1704240000000) ∨
           (startOfDayUTC 1704067200000 ≤ b.endDate ∧
              b.endDate ≤ endOfDayUTC 1704240000000) ∨
           (b.startDate ≤ startOfDayUTC 1704067200000 ∧
              endOfDayUTC 1704240000000 ≤ b.endDate)) →
          ¬(b.status = "paid" ∨ b.status = "awaiting_payment") :=
  checkEquipmentAvailability_spec storeW 1 1704067200000 1704240000000

theorem applyEquipmentUpdate_id (u : EquipmentUpdate) (e : Equipment) :
    (applyEquipmentUpdate u e).id = e.id := rfl

theorem applyBookingUpdate_id (u : BookingUpdate) (b : Booking) :
    (applyBookingUpdate u b).id = b.id := rfl

theorem find?_updateEquipmentList (l : List Equipment) (id : Nat) (u : EquipmentUpdate) :
    (l.map (fun x => if x.id == id then applyEquipmentUpdate u x else x)).find?
        (fun e => e.id == id) =
      (l.find? (fun e => e.id == id)).map (applyEquipmentUpdate u) := by
  induction l with
  | nil => rfl
  | cons x xs ih =>
    rw [List.map_cons]
    by_cases hx : x.id = id
    · have h1 : ((applyEquipmentUpdate u x).id == id) = true := by
        simp [applyEquipmentUpdate_id, hx]
      have h2 : (x.id == id) = true := by simp [hx]
      rw [if_pos h2]
      simp only [List.find?_cons, h1, h2]
      rfl
    · have h2 : (x.id == id) = false := by simp [hx]
      rw [if_neg (by simp [hx])]
      simp only [List.find?_cons, h2]
      exact ih

theorem find?_updateBookingList (l : List Booking) (id : Nat) (u : BookingUpdate) :
    (l.map (fun x => if x.id == id then applyBookingUpdate u x else x)).find?
        (fun b => b.id == id) =
      (l.find? (fun b => b.id == id)).map (applyBookingUpdate u) := by
  induction l with
  | nil => rfl
  | cons x xs ih =>
    rw [List.map_cons]
    by_cases hx : x.id = id
    · have h1 : ((applyBookingUpdate u x).id == id) = true := by
        simp [applyBookingUpdate_id, hx]
      have h2 : (x.id == id) = true := by simp [hx]
      rw [if_pos h2]
      simp only [List.find?_cons, h1, h2]
      rfl
    · have h2 : (x.id == id) = false := by simp [hx]
      rw [if_neg (by simp [hx])]
      simp only [List.find?_cons, h2]
      exact ih

theorem find?_append_right {α : Type} (p : α → Bool) (l l' : List α)
    (h : l.find? p = none) : (l ++ l').find? p = l'.find? p := by
  induction l with
  | nil => rfl
  | cons x xs ih =>
    rw [List.cons_append]
    cases hx : p x with
    | true => rw [List.find?_cons_of_pos _ hx] at h; cases h
    | false =>
      rw [List.find?_cons_of_neg _ (by simp [hx])] at h
      rw [List.find?_cons_of_neg _ (by simp [hx])]
      exact ih h

theorem updateEquipment_eq (s : Store) (id : Nat) (u : EquipmentUpdate) (e : Equipment)
    (h : getEquipment s id = some e) :
    updateEquipment s id u =
      .ok ({ s with equipments :=
               s.equipments.map (fun x => if x.id == id then applyEquipmentUpdate u x else x) },
           applyEquipmentUpdate u e) := by
  unfold updateEquipment
  rw [h]

theorem updateBooking_eq (s : Store) (id : Nat) (u : BookingUpdate) (b : Booking)
    (h : getBooking s id = some b) :
    updateBooking s id u =
      .ok ({ s with bookings :=
               s.bookings.map (fun x => if x.id == id then applyBookingUpdate u x else x) },
           applyBookingUpdate u b) := by
  unfold updateBooking
  rw [h]

theorem find?_fresh_append (l : List Booking) (row : Booking) (id : Nat)
    (hid : row.id = id) (hfresh : ∀ bk ∈ l, bk.id ≠ id) :
    (l ++ [row]).find? (fun b => b.id == id) = some row := by
  rw [find?_append_right _ _ _
      (List.find?_eq_none.mpr (fun x hx => by simp [hfresh x hx]))]
  simp [List.find?_cons, hid]

theorem createBookingCompensate_ne_created (s : Store) (eqId bid : Nat) (b : Booking)
    (s' : Store) : createBookingCompensate s eqId bid ≠ (.created b, s') := by
  intro hcon
  unfold createBookingCompensate at hcon
  split at hcon
  · simp at hcon
  · split at hcon
    · simp at hcon
    · simp at hcon

theorem updateEquipment_createBooking (s : Store) (row : Booking) (id : Nat)
    (u : EquipmentUpdate) :
    updateEquipment (createBooking s row) id u =
      match getEquipment s id with
      | none => .error "Equipment not found"
      | some e =>
        .ok
          ({ s with
             bookings := (s.bookings ++ [row]),
             equipments :=
               (s.equipments.map
                 (fun x => if x.id == id then applyEquipmentUpdate u x else x)) },
           applyEquipmentUpdate u e) := rfl

theorem createBookingLockState_eq (s : Store) (uid eqId : Nat) (sd ed price : Int)
    (newId : Nat) (cAt : Int) (e : Equipment) (he : getEquipment s eqId = some e) :
    createBookingLockState s uid eqId sd ed price newId cAt =
      { s with
        bookings := (s.bookings ++ [newBookingRow uid eqId sd ed price newId cAt]),
        equipments :=
          (s.equipments.map (fun x => if x.id == eqId then
             applyEquipmentUpdate { availability := some false } x else x)) } := by
  unfold createBookingLockState
  rw [updateEquipment_createBooking, he]

theorem createBookingRoute_run_true (s : Store) (uid eqId : Nat) (sd ed : Int)
    (newId : Nat) (cAt : Int) (oid : String) (e : Equipment)
    (he : getEquipment s eqId = some e) (hav : e.availability = true)
    (hchk : checkEquipmentAvailability s eqId sd ed = true) :
    createBookingRoute s uid eqId sd ed newId cAt true oid =
      createBookingPromote
        (createBookingLockState s uid eqId sd ed (bookingTotalAmount e.dailyRate sd ed)
          newId cAt) eqId newId oid := by
  unfold createBookingRoute
  rw [he]
  simp only [hav, hchk, Bool.not_true, Bool.false_eq_true, if_false]
  rw [updateEquipment_createBooking, he,
      createBookingLockState_eq s uid eqId sd ed _ newId cAt e he]
  rfl

theorem createBookingRoute_run_false (s : Store) (uid eqId : Nat) (sd ed : Int)
    (newId : Nat) (cAt : Int) (oid : String) (e : Equipment)
    (he : getEquipment s eqId = some e) (hav : e.availability = true)
    (hchk : checkEquipmentAvailability s eqId sd ed = true) :
    createBookingRoute s uid eqId sd ed newId cAt false oid =
      createBookingCompensate
        (createBookingLockState s uid eqId sd ed (bookingTotalAmount e.dailyRate sd ed)
          newId cAt) eqId newId := by
  unfold createBookingRoute
  rw [he]
  simp only [hav, hchk, Bool.not_true, Bool.false_eq_true, if_false]
  rw [updateEquipment_createBooking, he,
      createBookingLockState_eq s uid eqId sd ed _ newId cAt e he]

theorem createBookingLockState_getEquipment (s : Store) (uid eqId : Nat) (sd ed price : Int)
    (newId : Nat) (cAt : Int) (e : Equipment) (he : getEquipment s eqId = some e) :
    getEquipment (createBookingLockState s uid eqId sd ed price newId cAt) eqId =
      some { e with availability := false } := by
  rw [createBookingLockState_eq s uid eqId sd ed price newId cAt e he]
  unfold getEquipment
  dsimp only
  rw [find?_updateEquipmentList]
  rw [show s.equipments.find? (fun x => x.id == eqId) = some e from he]
  rfl

theorem createBookingCompensate_lockState (s : Store) (uid eqId : Nat) (sd ed price : Int)
    (newId : Nat) (cAt : Int) (e : Equipment) (he : getEquipment s eqId = some e)
    (hfresh : ∀ bk ∈ s.bookings, bk.id ≠ newId) :
    ∃ s', createBookingCompensate
        (createBookingLockState s uid eqId sd ed price newId cAt) eqId newId =
        (.paymentFailed, s') ∧
      getEquipment s' eqId = some { e with availability := true } ∧
      getBooking s' newId =
        some { newBookingRow uid eqId sd ed price newId cAt with
               status := "payment_failed" } := by
  rw [createBookingLockState_eq s uid eqId sd ed price newId cAt e he]
  unfold createBookingCompensate
  have hge : getEquipment
      { s with
        bookings := (s.bookings ++ [newBookingRow uid eqId sd ed price newId cAt]),
        equipments :=
          (s.equipments.map (fun x => if x.id == eqId then
             applyEquipmentUpdate { availability := some false } x else x)) }
      eqId = some (applyEquipmentUpdate { availability := some false } e) := by
    unfold getEquipment
    dsimp only
    rw [find?_updateEquipmentList]
    rw [show s.equipments.find? (fun x => x.id == eqId) = some e from he]
    rfl
  rw [updateEquipment_eq _ eqId _ _ hge]
  dsimp only
  have hgb2 : getBooking
      { s with
        bookings := (s.bookings ++ [newBookingRow uid eqId sd ed price newId cAt]),
        equipments :=
          ((s.equipments.map (fun x => if x.id == eqId then
              applyEquipmentUpdate { availability := some false } x else x)).map
            (fun x => if x.id == eqId then
               applyEquipmentUpdate { availability := some true } x else x)) }
      newId = some (newBookingRow uid eqId sd ed price newId cAt) :=
    find?_fresh_append _ _ _ rfl hfresh
  rw [updateBooking_eq _ newId _ _ hgb2]
  refine ⟨_, rfl, ?_, ?_⟩
  · unfold getEquipment
    dsimp only
    rw [find?_updateEquipmentList, find?_updateEquipmentList]
    rw [show s.equipments.find? (fun x => x.id == eqId) = some e from he]
    rfl
  · unfold getBooking
    dsimp only
    rw [find?_updateBookingList,
        find?_fresh_append s.bookings (newBookingRow uid eqId sd ed price newId cAt)
          newId rfl hfresh]
    rfl

/-- C2 (amended): admission into POST /api/bookings requires that the
equipment exists, that its global flag is up and that
`checkEquipmentAvailability` holds for the requested range — but no
`startDate ≤ endDate` comparison is ever made.  Under those conditions both
continuations (order created / order failed) run from
`createBookingLockState`, a store in which the equipment flag is already
`false` — the eager lock precedes the external payment order — and when the
order succeeds the route answers `created` with the row promoted to
`awaiting_payment`, carrying the order id and the computed price, the row
retrievable and the equipment still locked.  Conversely a `created` answer is
only possible when the three admission conditions held and the order
succeeded. -/
theorem createBookingRoute_spec
    (s : Store) (uid eqId : Nat) (sd ed : Int) (newId : Nat) (cAt : Int) (oid : String)
    (e : Equipment)
    (he : getEquipment s eqId = some e) (hav : e.availability = true)
    (hchk : checkEquipmentAvailability s eqId sd ed = true)
    (hfresh : ∀ bk ∈ s.bookings, bk.id ≠ newId) :
    (createBookingRoute s uid eqId sd ed newId cAt true oid =
       createBookingPromote
         (createBookingLockState s uid eqId sd ed (bookingTotalAmount e.dailyRate sd ed)
           newId cAt) eqId newId oid) ∧
    (createBookingRoute s uid eqId sd ed newId cAt false oid =
       createBookingCompensate
         (createBookingLockState s uid eqId sd ed (bookingTotalAmount e.dailyRate sd ed)
           newId cAt) eqId newId) ∧
    (getEquipment
       (createBookingLockState s uid eqId sd ed (bookingTotalAmount e.dailyRate sd ed)
         newId cAt) eqId = some { e with availability := false }) ∧
    (∃ ub s3,
       createBookingPromote
         (createBookingLockState s uid eqId sd ed (bookingTotalAmount e.dailyRate sd ed)
           newId cAt) eqId newId oid = (.created ub, s3) ∧
       ub.status = "awaiting_payment" ∧ ub.razorpayOrderId = some oid ∧
       ub.totalPrice = bookingTotalAmount e.dailyRate sd ed ∧
       getBooking s3 newId = some ub ∧
       getEquipment s3 eqId = some { e with availability := false }) ∧
    (∀ (t : Store) (ok : Bool) (b' : Booking) (t' : Store),
       createBookingRoute t uid eqId sd ed newId cAt ok oid = (.created b', t') →
       ∃ e', getEquipment t eqId = some e' ∧ e'.availability = true ∧
         checkEquipmentAvailability t eqId sd ed = true ∧ ok = true) := by
  refine ⟨?_, ?_, ?_, ?_, ?_⟩
  · unfold createBookingRoute
    rw [he]
    simp only [hav, hchk, Bool.not_true, Bool.false_eq_true, if_false]
    rw [updateEquipment_createBooking, he,
        createBookingLockState_eq s uid eqId sd ed _ newId cAt e he]
    rfl
  · unfold createBookingRoute
    rw [he]
    simp only [hav, hchk, Bool.not_true, Bool.false_eq_true, if_false]
    rw [updateEquipment_createBooking, he,
        createBookingLockState_eq s uid eqId sd ed _ newId cAt e he]
  · rw [createBookingLockState_eq s uid eqId sd ed _ newId cAt e he]
    unfold getEquipment
    dsimp only
    rw [find?_updateEquipmentList]
    rw [show s.equipments.find? (fun x => x.id == eqId) = some e from he]
    rfl
  · rw [createBookingLockState_eq s uid eqId sd ed _ newId cAt e he]
    unfold createBookingPromote
    have hgb : getBooking
        { s with
          bookings := (s.bookings ++
            [newBookingRow uid eqId sd ed (bookingTotalAmount e.dailyRate sd ed) newId cAt]),
          equipments :=
            (s.equipments.map (fun x => if x.id == eqId then
               applyEquipmentUpdate { availability := some false } x else x)) }
        newId =
        some (newBookingRow uid eqId sd ed (bookingTotalAmount e.dailyRate sd ed) newId cAt) :=
      find?_fresh_append _ _ _ rfl hfresh
    rw [updateBooking_eq _ newId _ _ hgb]
    refine ⟨_, _, rfl, rfl, rfl, rfl, ?_, ?_⟩
    · unfold getBooking
      dsimp only
      rw [find?_updateBookingList,
          find?_fresh_append s.bookings
            (newBookingRow uid eqId sd ed (bookingTotalAmount e.dailyRate sd ed) newId cAt)
            newId rfl hfresh]
      rfl
    · unfold getEquipment
      dsimp only
      rw [find?_updateEquipmentList]
      rw [show s.equipments.find? (fun x => x.id == eqId) = some e from he]
      rfl
  · intro t ok b' t' hr
    unfold createBookingRoute at hr
    cases hg : getEquipment t eqId with
    | none => rw [hg] at hr; simp at hr
    | some e' =>
      rw [hg] at hr
      cases hae : e'.availability with
      | false => simp [hae] at hr
      | true =>
        simp only [hae, Bool.not_true, Bool.false_eq_true, if_false] at hr
        cases hc : checkEquipmentAvailability t eqId sd ed with
        | false => simp [hc] at hr
        | true =>
          simp only [hc, Bool.not_true, Bool.false_eq_true, if_false] at hr
          cases ok with
          | true => exact ⟨e', rfl, hae, rfl, rfl⟩
          | false =>
            exfalso
            split at hr
            · exact createBookingCompensate_ne_created _ _ _ _ _ hr
            · simp only [Bool.false_eq_true, if_false] at hr
              exact createBookingCompensate_ne_created _ _ _ _ _ hr

/-- The Create route admits a request whose `startDate` is after its
`endDate`: on the empty one-tractor marketplace a booking from 2024-01-03
back to 2024-01-01 is accepted — the `max 1` clamp prices it at one day — and
it ends `awaiting_payment`, so admission does not require
`startDate ≤ endDate`. -/
theorem createBookingRoute_no_date_order_cex :
    ¬((1704240000000 : Int) ≤ 1704067200000) ∧
    (createBookingRoute storeW 3 1 1704240000000 1704067200000 1 0 true "order_A").1 =
      .created
        { id := 1, equipmentId := 1, userId := 3, startDate := 1704240000000,
          endDate := 1704067200000, totalPrice := 500, status := "awaiting_payment",
          razorpayOrderId := some "order_A", razorpayPaymentId := none, isRated := false,
          createdAt := 0 } :=
  ⟨by decide, by decide⟩

/-- The admission/lock behaviour of the Create route instantiated at the
concrete one-tractor marketplace: the store handed to the payment gateway
already has the equipment flag down. -/
theorem createBookingRoute_spec_witness :
    getEquipment
      (createBookingLockState storeW 3 1 1704067200000 1704240000000
        (bookingTotalAmount equipW.dailyRate 1704067200000 1704240000000) 1 0) 1 =
      some { equipW with availability := false } :=
  (createBookingRoute_spec storeW 3 1 1704067200000 1704240000000 1 0 "order_A" equipW
    (by decide) (by decide) (by decide) (by decide)).2.2.1

/-- C5: when the external payment-order creation fails after a Create has
been admitted, the compensating action runs: the equipment flag is restored
to `true` and the booking row persists with status `payment_failed`. -/
theorem createBookingRoute_compensation
    (s : Store) (uid eqId : Nat) (sd ed : Int) (newId : Nat) (cAt : Int) (oid : String)
    (e : Equipment)
    (he : getEquipment s eqId = some e) (hav : e.availability = true)
    (hchk : checkEquipmentAvailability s eqId sd ed = true)
    (hfresh : ∀ bk ∈ s.bookings, bk.id ≠ newId) :
    ∃ s', createBookingRoute s uid eqId sd ed newId cAt false oid = (.paymentFailed, s') ∧
      getEquipment s' eqId = some { e with availability := true } ∧
      getBooking s' newId =
        some { newBookingRow uid eqId sd ed (bookingTotalAmount e.dailyRate sd ed)
                 newId cAt with status := "payment_failed" } := by
  obtain ⟨s', h1, h2, h3⟩ :=
    createBookingCompensate_lockState s uid eqId sd ed
      (bookingTotalAmount e.dailyRate sd ed) newId cAt e he hfresh
  refine ⟨s', ?_, h2, h3⟩
  rw [createBookingRoute_run_false s uid eqId sd ed newId cAt oid e he hav hchk]
  exact h1

/-- The compensation path instantiated at the concrete marketplace: order
creation fails, the booking ends `payment_failed` and the tractor is
available again. -/
theorem createBookingRoute_compensation_witness :
    ∃ s', createBookingRoute storeW 3 1 1704067200000 1704240000000 1 0 false "order_A" =
        (.paymentFailed, s') ∧
      getEquipment s' 1 = some { equipW with availability := true } ∧
      getBooking s' 1 =
        some { newBookingRow 3 1 1704067200000 1704240000000
                 (bookingTotalAmount equipW.dailyRate 1704067200000 1704240000000) 1 0 with
               status := "payment_failed" } :=
  createBookingRoute_compensation storeW 3 1 1704067200000 1704240000000 1 0 "order_A"
    equipW (by decide) (by decide) (by decide) (by decide)

/-- Two different signature strings supplied for the same already-paid
booking do not receive the same response: the empty signature is rejected as
a missing field (before the booking is even read), while a non-empty one
reaches the already-paid short-circuit and is answered success. -/
theorem verifyPayment_empty_signature_cex :
    (verifyPaymentRoute hmacT "secret" storeP 1 "order_A" "pay_A" "").1 ≠
      (verifyPaymentRoute hmacT "secret" storeP 1 "order_A" "pay_A" "x").1 := by
  decide

/-- C10 (amended): for a booking already `paid`, once the field-presence
validation passes (non-zero id, non-empty strings), the verify endpoint
short-circuits before signature verification: any two supplied non-empty
signatures produce the identical `alreadyPaid` success response and leave
the store untouched. -/
theorem verifyPayment_alreadyPaid_signature_independent
    (hmac : String → String → String) (ks : String) (s : Store) (bid : Nat)
    (oid pid sig1 sig2 : String) (b : Booking)
    (hb : getBooking s bid = some b) (hpaid : b.status = "paid")
    (hbid : bid ≠ 0) (hoid : oid ≠ "") (hpid : pid ≠ "")
    (h1 : sig1 ≠ "") (h2 : sig2 ≠ "") :
    verifyPaymentRoute hmac ks s bid oid pid sig1 = (.alreadyPaid b, s) ∧
    verifyPaymentRoute hmac ks s bid oid pid sig2 = (.alreadyPaid b, s) := by
  constructor <;>
  · unfold verifyPaymentRoute
    rw [if_neg (by simp [hbid, hoid, hpid, h1, h2])]
    rw [hb]
    simp [hpaid]

/-- The already-paid short-circuit instantiated at the paid concrete store
with two unrelated signatures. -/
theorem verifyPayment_alreadyPaid_witness :
    verifyPaymentRoute hmacT "secret" storeP 1 "order_A" "pay_A" "sigX" =
      (.alreadyPaid bookingP, storeP) ∧
    verifyPaymentRoute hmacT "secret" storeP 1 "order_A" "pay_A" "sigY" =
      (.alreadyPaid bookingP, storeP) :=
  verifyPayment_alreadyPaid_signature_independent hmacT "secret" storeP 1 "order_A"
    "pay_A" "sigX" "sigY" bookingP (by decide) (by decide) (by decide) (by decide)
    (by decide) (by decide) (by decide)

/-- C4: signature-verification failure is never upgraded to success.  On the
synchronous path, a well-formed verify call (all four fields present) for an
`awaiting_payment` booking whose signature differs from
HMAC-SHA256(secret, orderId|paymentId) is answered `invalidSignature`, the
booking row is left untouched (still `awaiting_payment`) and the equipment
flag is restored to `true`.  On the webhook path, while a secret is
configured, a missing (or empty, which JS treats as missing) or mismatched
`x-razorpay-signature` header is answered 400 with no state mutation. -/
theorem signature_failure_not_upgraded
    (hmac : String → String → String) (ks : String) (s : Store) (bid : Nat)
    (oid pid sig : String) (b : Booking) (e : Equipment)
    (hb : getBooking s bid = some b) (hst : b.status = "awaiting_payment")
    (he : getEquipment s b.equipmentId = some e)
    (hbid : bid ≠ 0) (hoid : oid ≠ "") (hpid : pid ≠ "") (hsig : sig ≠ "")
    (hbad : hmac ks (oid ++ "|" ++ pid) ≠ sig) :
    (∃ s1, verifyPaymentRoute hmac ks s bid oid pid sig = (.invalidSignature, s1) ∧
       getBooking s1 bid = some b ∧
       getEquipment s1 b.equipmentId = some { e with availability := true }) ∧
    (∀ (secret rawBody : String) (ev : WebhookEvent) (hdr : Option String),
       (∀ x, hdr = some x → x ≠ hmac secret rawBody) →
       (webhookRoute hmac (some secret) hdr rawBody ev s).2 = s ∧
       ((webhookRoute hmac (some secret) hdr rawBody ev s).1 = .missingSignature ∨
        (webhookRoute hmac (some secret) hdr rawBody ev s).1 = .invalidSignature)) := by
  constructor
  · unfold verifyPaymentRoute
    rw [if_neg (by simp [hbid, hoid, hpid, hsig])]
    rw [hb]
    dsimp only
    have hnp : (b.status == "paid") = false := by simp [hst]
    have hv : verifyPaymentSignature hmac ks oid pid sig = false := by
      unfold verifyPaymentSignature
      simp [hbad]
    simp only [hnp, Bool.false_eq_true, if_false, hv, Bool.not_false, if_true]
    rw [updateEquipment_eq _ _ _ _ he]
    refine ⟨_, rfl, ?_, ?_⟩
    · unfold getBooking
      dsimp only
      exact hb
    · unfold getEquipment
      dsimp only
      rw [find?_updateEquipmentList]
      rw [show s.equipments.find? (fun x => x.id == b.equipmentId) = some e from he]
      rfl
  · intro secret rawBody ev hdr hne
    cases hdr with
    | none => exact ⟨rfl, Or.inl rfl⟩
    | some x =>
      by_cases hx : x = ""
      · subst hx
        exact ⟨rfl, Or.inl rfl⟩
      · have hxe : (x == "") = false := by simp [hx]
        have hxs : (x != hmac secret rawBody) = true := by simp [hne x rfl]
        unfold webhookRoute
        simp only [hxe, Bool.false_eq_true, if_false, hxs, if_true]
        exact ⟨trivial, Or.inr trivial⟩

/-- The signature-failure behaviour instantiated: a wrong signature on the
locked concrete store answers `invalidSignature`, keeps `bookingA` awaiting
payment and raises the tractor's flag again. -/
theorem signature_failure_not_upgraded_witness :
    (∃ s1, verifyPaymentRoute hmacT "ks" storeL 1 "order_A" "pay_A" "bad" =
        (.invalidSignature, s1) ∧
       getBooking s1 1 = some bookingA ∧
       getEquipment s1 bookingA.equipmentId =
         some { equipW with availability := true }) ∧
    (∀ (secret rawBody : String) (ev : WebhookEvent) (hdr : Option String),
       (∀ x, hdr = some x → x ≠ hmacT secret rawBody) →
       (webhookRoute hmacT (some secret) hdr rawBody ev storeL).2 = storeL ∧
       ((webhookRoute hmacT (some secret) hdr rawBody ev storeL).1 = .missingSignature ∨
        (webhookRoute hmacT (some secret) hdr rawBody ev storeL).1 = .invalidSignature)) :=
  signature_failure_not_upgraded hmacT "ks" storeL 1 "order_A" "pay_A" "bad" bookingA
    { equipW with availability := false } (by decide) (by decide) (by decide) (by decide)
    (by decide) (by decide) (by decide) (by decide)

/-- A duplicate `payment.captured` webhook is not detected: each delivery of
the same capture event re-runs the booking/equipment updates and generates a
fresh receipt, so after two deliveries the receipt count is 2, not 1. -/
theorem webhook_duplicate_receipt_cex :
    ((webhookRoute hmacT none none "" evCap storeL).2).receiptCount = 1 ∧
    ((webhookRoute hmacT none none ""
        evCap (webhookRoute hmacT none none "" evCap storeL).2).2).receiptCount = 2 :=
  ⟨by decide, by decide⟩

/-- C3 (amended): the synchronous verify-payment path is idempotent under
re-delivery: a successful call marks the booking `paid` and a second call
with the same bookingId/orderId/paymentId/signature short-circuits on the
already-`paid` check — before signature verification — answering success
with the stored booking and leaving the store (receipt count included)
unchanged; the sync path never touches the receipt counter.  The webhook
path has no such duplicate detection (see the counterexample). -/
theorem verifyPayment_idempotent
    (hmac : String → String → String) (ks : String) (s : Store) (bid : Nat)
    (oid pid sig : String) (b : Booking) (e : Equipment)
    (hbid : bid ≠ 0) (hoid : oid ≠ "") (hpid : pid ≠ "") (hsig : sig ≠ "")
    (hb : getBooking s bid = some b) (hnp : b.status ≠ "paid")
    (hgood : hmac ks (oid ++ "|" ++ pid) = sig)
    (he : getEquipment s b.equipmentId = some e) :
    ∃ b1 s1, verifyPaymentRoute hmac ks s bid oid pid sig = (.success b1, s1) ∧
      verifyPaymentRoute hmac ks s1 bid oid pid sig = (.alreadyPaid b1, s1) ∧
      s1.receiptCount = s.receiptCount := by
  have hC0 : ¬((bid == 0 || oid == "" || pid == "" || sig == "") = true) := by
    simp [hbid, hoid, hpid, hsig]
  have hnpb : (b.status == "paid") = false := by simp [hnp]
  have hv : verifyPaymentSignature hmac ks oid pid sig = true := by
    unfold verifyPaymentSignature
    simp [hgood]
  refine ⟨applyBookingUpdate { status := some "paid", razorpayPaymentId := some pid } b,
    { s with
      bookings := (s.bookings.map (fun x => if x.id == bid then
        applyBookingUpdate { status := some "paid", razorpayPaymentId := some pid } x
        else x)),
      equipments := (s.equipments.map (fun x => if x.id == b.equipmentId then
        applyEquipmentUpdate { availability := some false } x else x)) },
    ?_, ?_, ?_⟩
  · unfold verifyPaymentRoute
    rw [if_neg hC0, hb]
    dsimp only
    simp only [hnpb, Bool.false_eq_true, if_false, hv, Bool.not_true, if_true]
    rw [updateBooking_eq _ bid _ _ hb]
    dsimp only
    rw [updateEquipment_eq _ _ _ _
        (show getEquipment
            { s with
              bookings := (s.bookings.map (fun x => if x.id == bid then
                applyBookingUpdate
                  { status := some "paid", razorpayPaymentId := some pid } x else x)) }
            b.equipmentId = some e from he)]
  · unfold verifyPaymentRoute
    rw [if_neg hC0]
    have hb2 : getBooking
        { s with
          bookings := (s.bookings.map (fun x => if x.id == bid then
            applyBookingUpdate
              { status := some "paid", razorpayPaymentId := some pid } x else x)),
          equipments :=
            (s.equipments.map (fun x => if x.id == b.equipmentId then
               applyEquipmentUpdate { availability := some false } x else x)) }
        bid =
        some (applyBookingUpdate
          { status := some "paid", razorpayPaymentId := some pid } b) := by
      unfold getBooking
      dsimp only
      rw [find?_updateBookingList]
      rw [show s.bookings.find? (fun x => x.id == bid) = some b from hb]
      rfl
    rw [hb2]
    dsimp only
    rfl
  · rfl

/-- Sync-path idempotence instantiated on the locked concrete store with the
matching signature: the first call succeeds, the replay answers
`alreadyPaid` with the same booking and identical store. -/
theorem verifyPayment_idempotent_witness :
    ∃ b1 s1, verifyPaymentRoute hmacT "ks" storeL 1 "order_A" "pay_A" "ks#order_A|pay_A" =
        (.success b1, s1) ∧
      verifyPaymentRoute hmacT "ks" s1 1 "order_A" "pay_A" "ks#order_A|pay_A" =
        (.alreadyPaid b1, s1) ∧
      s1.receiptCount = storeL.receiptCount :=
  verifyPayment_idempotent hmacT "ks" storeL 1 "order_A" "pay_A" "ks#order_A|pay_A"
    bookingA { equipW with availability := false } (by decide) (by decide) (by decide)
    (by decide) (by decide) (by decide) (by decide) (by decide)

/-- The webhook route runs the placeholder `handleWebhookEvent` of the routes
module, which dispatches on `payload.payment.status` and treats
`payload.payment.order_id` as the booking id: a `payment.captured` event
whose payment status field reads `authorized` is acknowledged with no state
change, although the payment-module `handleWebhookEvent` (exported but never
imported by the routes module) maps that very event to Confirm for
`notes.bookingId` 1. -/
theorem webhook_dispatch_bug :
    evBug.event = "payment.captured" ∧
    webhookRoute hmacT none none "" evBug storeL = (.received, storeL) ∧
    paymentModuleHandleWebhookEvent evBug =
      .ok (some (.success 1 "order_A" "pay_A")) :=
  ⟨by decide, by decide, rfl⟩

/-- An owner-initiated availability edit rewrites the equipment flag while a
booking for that equipment is active (`awaiting_payment`): no booking state
guards the PATCH availability endpoint. -/
theorem owner_availability_edit_cex :
    bookingA ∈ storeL.bookings ∧ bookingA.status = "awaiting_payment" ∧
    bookingA.equipmentId = 1 ∧
    getEquipment storeL 1 = some { equipW with availability := false } ∧
    getEquipment (patchAvailabilityRoute storeL 2 1 true).2 1 =
      some { equipW with availability := true } :=
  ⟨by decide, by decide, by decide, by decide, by decide⟩

/-- C9 (amended): the availability PATCH endpoint writes the equipment flag
for the owner unconditionally — no booking state is consulted, so the write
also happens while a booking referencing the equipment is active — while an
owner (or admin) edit through the general equipment PATCH whose body does not
carry the `availability` field leaves the flag unchanged. -/
theorem equipment_edit_flag_spec
    (s : Store) (uid : Nat) (isAdmin : Bool) (eqId : Nat) (u : EquipmentUpdate)
    (e : Equipment) (he : getEquipment s eqId = some e) (hown : e.ownerId = uid) :
    (∀ c : Bool, ∃ s',
       patchAvailabilityRoute s uid eqId c = (.ok { e with availability := c }, s') ∧
       getEquipment s' eqId = some { e with availability := c }) ∧
    (u.availability = none →
       ∃ s', patchEquipmentRoute s uid isAdmin eqId u =
           (.ok (applyEquipmentUpdate u e), s') ∧
         getEquipment s' eqId = some (applyEquipmentUpdate u e) ∧
         (applyEquipmentUpdate u e).availability = e.availability) := by
  have hne : (e.ownerId != uid) = false := by simp [hown]
  constructor
  · intro c
    unfold patchAvailabilityRoute
    rw [he]
    dsimp only
    simp only [hne, Bool.false_eq_true, if_false]
    rw [updateEquipment_eq _ _ _ _ he]
    refine ⟨_, rfl, ?_⟩
    unfold getEquipment
    dsimp only
    rw [find?_updateEquipmentList]
    rw [show s.equipments.find? (fun x => x.id == eqId) = some e from he]
    rfl
  · intro hua
    unfold patchEquipmentRoute
    rw [he]
    dsimp only
    simp only [hne, Bool.false_and, Bool.false_eq_true, if_false]
    rw [updateEquipment_eq _ _ _ _ he]
    refine ⟨_, rfl, ?_, ?_⟩
    · unfold getEquipment
      dsimp only
      rw [find?_updateEquipmentList]
      rw [show s.equipments.find? (fun x => x.id == eqId) = some e from he]
      rfl
    · unfold applyEquipmentUpdate
      rw [hua]
      rfl

/-- The edit behaviour instantiated on the one-tractor marketplace: the owner
flips the flag both ways through the availability endpoint, and a rename
through the general endpoint leaves the flag as it was. -/
theorem equipment_edit_flag_witness :
    (∀ c : Bool, ∃ s',
       patchAvailabilityRoute storeW 2 1 c = (.ok { equipW with availability := c }, s') ∧
       getEquipment s' 1 = some { equipW with availability := c }) ∧
    (({ name := some "Harvester" } : EquipmentUpdate).availability = none →
       ∃ s', patchEquipmentRoute storeW 2 false 1 { name := some "Harvester" } =
           (.ok (applyEquipmentUpdate { name := some "Harvester" } equipW), s') ∧
         getEquipment s' 1 =
           some (applyEquipmentUpdate { name := some "Harvester" } equipW) ∧
         (applyEquipmentUpdate { name := some "Harvester" } equipW).availability =
           equipW.availability) :=
  equipment_edit_flag_spec storeW 2 false 1 { name := some "Harvester" } equipW
    (by decide) (by decide)

theorem mem_insertByCreatedAtDesc {a b : Booking} {l : List Booking} :
    a ∈ insertByCreatedAtDesc b l ↔ a = b ∨ a ∈ l := by
  induction l with
  | nil => simp [insertByCreatedAtDesc]
  | cons x xs ih =>
    unfold insertByCreatedAtDesc
    by_cases h : x.createdAt ≤ b.createdAt
    · simp [h]
    · simp [h, ih]
      tauto

theorem mem_sortByCreatedAtDesc {a : Booking} {l : List Booking} :
    a ∈ sortByCreatedAtDesc l ↔ a ∈ l := by
  induction l with
  | nil => simp [sortByCreatedAtDesc]
  | cons x xs ih => simp [sortByCreatedAtDesc, mem_insertByCreatedAtDesc, ih]

theorem pairwise_insertByCreatedAtDesc {b : Booking} {l : List Booking}
    (h : l.Pairwise (fun a c => c.createdAt ≤ a.createdAt)) :
    (insertByCreatedAtDesc b l).Pairwise (fun a c => c.createdAt ≤ a.createdAt) := by
  induction l with
  | nil => simp [insertByCreatedAtDesc]
  | cons x xs ih =>
    rcases List.pairwise_cons.mp h with ⟨hx, hxs⟩
    unfold insertByCreatedAtDesc
    by_cases hle : x.createdAt ≤ b.createdAt
    · rw [if_pos hle]
      refine List.pairwise_cons.mpr ⟨?_, h⟩
      intro y hy
      rcases List.mem_cons.mp hy with rfl | hy'
      · exact hle
      · exact le_trans (hx y hy') hle
    · rw [if_neg hle]
      refine List.pairwise_cons.mpr ⟨?_, ih hxs⟩
      intro y hy
      rcases mem_insertByCreatedAtDesc.mp hy with rfl | hy'
      · exact le_of_not_le hle
      · exact hx y hy'

theorem pairwise_sortByCreatedAtDesc (l : List Booking) :
    (sortByCreatedAtDesc l).Pairwise (fun a c => c.createdAt ≤ a.createdAt) := by
  induction l with
  | nil => simp [sortByCreatedAtDesc]
  | cons x xs ih => exact pairwise_insertByCreatedAtDesc ih

theorem find?_pairwise_max {p : Booking → Bool} {l : List Booking} {b : Booking}
    (hp : l.Pairwise (fun a c => c.createdAt ≤ a.createdAt))
    (h : l.find? p = some b) :
    ∀ x ∈ l, p x = true → x.createdAt ≤ b.createdAt := by
  induction l with
  | nil => cases h
  | cons a as ih =>
    rcases List.pairwise_cons.mp hp with ⟨ha, has⟩
    cases hpa : p a with
    | true =>
      rw [List.find?_cons_of_pos _ hpa] at h
      injection h with hba
      subst hba
      intro x hx hpx
      rcases List.mem_cons.mp hx with rfl | hx'
      · exact le_refl _
      · exact ha x hx'
    | false =>
      rw [List.find?_cons_of_neg _ (by simp [hpa])] at h
      intro x hx hpx
      rcases List.mem_cons.mp hx with rfl | hx'
      · rw [hpx] at hpa; cases hpa
      · exact ih has h x hx' hpx

theorem find?_isSome_of_mem {α : Type} {p : α → Bool} {l : List α} {x : α}
    (hx : x ∈ l) (hpx : p x = true) : ∃ b, l.find? p = some b := by
  cases h : l.find? p with
  | some b => exact ⟨b, rfl⟩
  | none => exact absurd hpx (List.find?_eq_none.mp h x hx)

/-- C7: with the schema bounds met (rating 1..5, comment 10..500 characters)
and a non-zero authenticated renter id, POST /api/reviews succeeds exactly
when the renter holds a `paid`, unrated booking for the equipment.  With no
eligible booking it answers the invalid-submission validation error (the
route has no not-found branch) without touching the store; with one it
inserts the review row, sets `isRated` on exactly the chosen booking, and the
chosen booking is an eligible one of maximal creation time (the newest-first
`listBookings` order makes the tie-break explicit). -/
theorem submitReviewRoute_spec
    (s : Store) (uid eqId rating : Nat) (comment : String)
    (huid : uid ≠ 0) (hr1 : 1 ≤ rating) (hr2 : rating ≤ 5)
    (hc1 : 10 ≤ comment.length) (hc2 : comment.length ≤ 500) :
    ((¬ ∃ bk ∈ s.bookings, bk.userId = uid ∧ bk.equipmentId = eqId ∧
        bk.status = "paid" ∧ bk.isRated = false) →
      submitReviewRoute s uid eqId rating comment = (.invalidSubmission, s)) ∧
    ((∃ bk ∈ s.bookings, bk.userId = uid ∧ bk.equipmentId = eqId ∧
        bk.status = "paid" ∧ bk.isRated = false) →
      ∃ vb s', submitReviewRoute s uid eqId rating comment =
          (.ok { userId := uid, equipmentId := eqId, rating := rating,
                 comment := comment }, s') ∧
        vb ∈ s.bookings ∧ vb.userId = uid ∧ vb.equipmentId = eqId ∧
        vb.status = "paid" ∧ vb.isRated = false ∧
        (∀ bk ∈ s.bookings, bk.userId = uid → bk.equipmentId = eqId →
           bk.status = "paid" → bk.isRated = false → bk.createdAt ≤ vb.createdAt) ∧
        s'.reviews = s.reviews ++
          [{ userId := uid, equipmentId := eqId, rating := rating,
             comment := comment }] ∧
        s'.bookings = s.bookings.map (fun x => if x.id == vb.id then
          applyBookingUpdate { isRated := some true } x else x) ∧
        s'.equipments = s.equipments) := by
  have hval : ¬(rating < 1 ∨ 5 < rating ∨ comment.length < 10 ∨ 500 < comment.length) := by
    push_neg
    exact ⟨hr1, hr2, hc1, hc2⟩
  have huid' : (uid != 0) = true := by simp [huid]
  constructor
  · intro hno
    have hnone : (listBookings s uid).find?
        (fun b => b.equipmentId == eqId && b.status == "paid" && !b.isRated) = none := by
      apply List.find?_eq_none.mpr
      intro x hxmem hpx
      unfold listBookings at hxmem
      rw [if_pos huid'] at hxmem
      obtain ⟨hxs, hxu⟩ := List.mem_filter.mp (mem_sortByCreatedAtDesc.mp hxmem)
      simp only [Bool.and_eq_true, beq_iff_eq, Bool.not_eq_true'] at hpx
      exact hno ⟨x, hxs, by simpa using hxu, hpx.1.1, hpx.1.2, hpx.2⟩
    unfold submitReviewRoute
    rw [if_neg hval, hnone]
  · rintro ⟨bk, hbkmem, hbku, hbke, hbkp, hbkr⟩
    have hbksort : bk ∈ sortByCreatedAtDesc
        (s.bookings.filter (fun b => b.userId == uid)) :=
      mem_sortByCreatedAtDesc.mpr (List.mem_filter.mpr ⟨hbkmem, by simp [hbku]⟩)
    obtain ⟨vb, hvb⟩ := @find?_isSome_of_mem Booking
      (fun b => b.equipmentId == eqId && b.status == "paid" && !b.isRated) _ bk
      hbksort (by simp [hbke, hbkp, hbkr])
    obtain ⟨hvbs, hvbu⟩ := List.mem_filter.mp
      (mem_sortByCreatedAtDesc.mp (List.mem_of_find?_eq_some hvb))
    have hvbp := List.find?_some hvb
    simp only [Bool.and_eq_true, beq_iff_eq, Bool.not_eq_true'] at hvbp
    have hmax := find?_pairwise_max (pairwise_sortByCreatedAtDesc _) hvb
    have hfind : (listBookings s uid).find?
        (fun b => b.equipmentId == eqId && b.status == "paid" && !b.isRated) = some vb := by
      unfold listBookings
      rw [if_pos huid']
      exact hvb
    obtain ⟨w, hw⟩ : ∃ w, getBooking
        (createReview s { userId := uid, equipmentId := eqId, rating := rating,
                          comment := comment }) vb.id = some w :=
      find?_isSome_of_mem (show vb ∈ s.bookings from hvbs) (by simp)
    refine ⟨vb,
      { s with
        reviews := (s.reviews ++
          [{ userId := uid, equipmentId := eqId, rating := rating, comment := comment }]),
        bookings := (s.bookings.map (fun x => if x.id == vb.id then
          applyBookingUpdate { isRated := some true } x else x)) },
      ?_, hvbs, by simpa using hvbu, hvbp.1.1, hvbp.1.2, hvbp.2, ?_, rfl, rfl, rfl⟩
    · unfold submitReviewRoute
      rw [if_neg hval, hfind]
      dsimp only
      rw [updateBooking_eq _ vb.id _ _ hw]
      rfl
    · intro bk' hm hu he' hp' hr'
      exact hmax bk'
        (mem_sortByCreatedAtDesc.mpr (List.mem_filter.mpr ⟨hm, by simp [hu]⟩))
        (by simp [he', hp', hr'])

/-- The review gate instantiated on the paid concrete store: renter 3 reviews
equipment 1 against the paid, unrated `bookingP`. -/
theorem submitReviewRoute_spec_witness :
    ((¬ ∃ bk ∈ storeP.bookings, bk.userId = 3 ∧ bk.equipmentId = 1 ∧
        bk.status = "paid" ∧ bk.isRated = false) →
      submitReviewRoute storeP 3 1 5 "Great tractor, would rent again" =
        (.invalidSubmission, storeP)) ∧
    ((∃ bk ∈ storeP.bookings, bk.userId = 3 ∧ bk.equipmentId = 1 ∧
        bk.status = "paid" ∧ bk.isRated = false) →
      ∃ vb s', submitReviewRoute storeP 3 1 5 "Great tractor, would rent again" =
          (.ok { userId := 3, equipmentId := 1, rating := 5,
                 comment := "Great tractor, would rent again" }, s') ∧
        vb ∈ storeP.bookings ∧ vb.userId = 3 ∧ vb.equipmentId = 1 ∧
        vb.status = "paid" ∧ vb.isRated = false ∧
        (∀ bk ∈ storeP.bookings, bk.userId = 3 → bk.equipmentId = 1 →
           bk.status = "paid" → bk.isRated = false → bk.createdAt ≤ vb.createdAt) ∧
        s'.reviews = storeP.reviews ++
          [{ userId := 3, equipmentId := 1, rating := 5,
             comment := "Great tractor, would rent again" }] ∧
        s'.bookings = storeP.bookings.map (fun x => if x.id == vb.id then
          applyBookingUpdate { isRated := some true } x else x) ∧
        s'.equipments = storeP.equipments) :=
  submitReviewRoute_spec storeP 3 1 5 "Great tractor, would rent again"
    (by decide) (by decide) (by decide) (by decide) (by decide)
